import Mathlib

/-!
Shallow embedding of the SpO2 alert engine in `src/app.py` (DN-alert-v6).

The Python code works over IEEE doubles; every threshold comparison in the
source carries a margin (at least 2e-5) that is many orders of magnitude
larger than double rounding error, so we embed the arithmetic over ℚ with
the exact decimal constants of the source.  `compute_table`'s per-iteration
body becomes `step`, the loop becomes `runFrom`, and the final pandas stage
(display rounding plus the column lookup that fails on an empty frame)
becomes `compute_table` returning `Except`.
-/

/-- `GOOD_SPO2 = 100.0` (src/app.py line 27). -/
def GOOD_SPO2 : ℚ := 100

/-- `BAD_SPO2 = 88.0` (line 28). -/
def BAD_SPO2 : ℚ := 88

/-- `DENOM = GOOD_SPO2 - BAD_SPO2` (line 29). -/
def DENOM : ℚ := GOOD_SPO2 - BAD_SPO2

/-- `S_DROP = 0.30` (line 31): deterioration above this fires DROP_EVENT. -/
def S_DROP : ℚ := 30 / 100

/-- `P_FLAT = 0.01` (line 32): flat-note threshold. -/
def P_FLAT : ℚ := 1 / 100

/-- `E_RESET = 0.5556` (line 35): persistence reset when E is at least this. -/
def E_RESET : ℚ := 5556 / 10000

/-- `E_VLOW = 0.1597` (line 36): very-low band upper boundary. -/
def E_VLOW : ℚ := 1597 / 10000

/-- `E_LOW_MAX = 0.4375` (line 37): low band upper boundary. -/
def E_LOW_MAX : ℚ := 4375 / 10000

/-- `N_VLOW = 3` (line 40): very-low persistence trigger streak length. -/
def N_VLOW : Nat := 3

/-- `N_LOW = 5` (line 41): low persistence trigger streak length. -/
def N_LOW : Nat := 5

/-- `HOLD_VLOW = 5` (line 44): minutes of hold armed by VERY_LOW_PERSIST. -/
def HOLD_VLOW : Nat := 5

/-- `HOLD_LOW = 3` (line 45): minutes of hold armed by LOW_PERSIST. -/
def HOLD_LOW : Nat := 3

/-- `EPS = 1e-9` (line 48): numeric tolerance used at every threshold. -/
def EPS : ℚ := 1 / 1000000000

/-- `clamp_spo2` (lines 80-81): clamp the raw sample into [50, 100]. -/
def clamp_spo2 (x : Int) : Int := max 50 (min 100 x)

/-- `spo2_to_e` (lines 84-95): T = clip((100 - SpO2)/12, 0, 1), E = 1 - T^2. -/
def spo2_to_e (spo2 : Int) : ℚ :=
  let s : ℚ := (clamp_spo2 spo2 : Int)
  let t0 : ℚ := (GOOD_SPO2 - s) / DENOM
  let t : ℚ := if t0 < 0 then 0 else if t0 > 1 then 1 else t0
  1 - t * t

/-- `RowOut` (lines 51-60); the free-text note is kept as its list of parts
(the source joins them with a separator before display). -/
structure RowOut where
  minute : Nat
  spo2 : Int
  e : ℚ
  ve : Option ℚ
  drop : Option ℚ
  alert : String
  reason : String
  note : List String
deriving DecidableEq, Repr

/-- The loop-carried state of `compute_table` (lines 99-108): `prev_e`, the
two streak counters, and the hold timer with its reason. -/
structure EngineState where
  prev_e : Option ℚ
  low_streak : Nat
  vlow_streak : Nat
  hold_left : Nat
  hold_reason : String
deriving DecidableEq, Repr

/-- Output of one iteration of the loop body: the emitted row, the committed
state, the source's local `triggered_now` flag, and the value `hold_left`
holds at the decision point (after the early-cancel block, before any
arming or decrement) — both are values of program locals at program points. -/
structure StepOut where
  row : RowOut
  state : EngineState
  triggered : Bool
  holdAtDecide : Nat
deriving DecidableEq, Repr

/-- One iteration of the `for i, raw in enumerate(spo2_raw, start=1)` body of
`compute_table` (lines 110-250), translated clause by clause. -/
def step (st : EngineState) (i : Nat) (raw : Int) : StepOut :=
  let e := spo2_to_e raw
  let ve : Option ℚ := st.prev_e.map (fun p => e - p)
  let drp : Option ℚ := st.prev_e.map (fun p => max 0 (-(e - p)))
  let note0 : List String :=
    match st.prev_e with
    | none => ["first sample"]
    | some p => if |e - p| ≤ P_FLAT + EPS then ["flat (|vE|<=p)"] else []
  if e ≤ 0 + EPS then
    { row := { minute := i, spo2 := raw, e := e, ve := ve, drop := drp,
               alert := "ON*", reason := "LIMIT_E0", note := note0 },
      state := { prev_e := some e, low_streak := 0, vlow_streak := 0,
                 hold_left := 0, hold_reason := "" },
      triggered := true, holdAtDecide := 0 }
  else
    let (low1, vlow1, hold1, hreason1, note1) :=
      if E_RESET - EPS ≤ e then
        (0, 0, 0, "",
          note0 ++ (if 0 < st.hold_left then ["hold cancelled (E>=E_reset)"] else [])
            ++ ["reset (E>=E_reset)"])
      else (st.low_streak, st.vlow_streak, st.hold_left, st.hold_reason, note0)
    let low2 := if e ≤ E_LOW_MAX + EPS then low1 + 1 else 0
    let vlow2 := if e ≤ E_VLOW + EPS then vlow1 + 1 else 0
    let note2 :=
      if e ≤ E_VLOW + EPS ∧ vlow2 < N_VLOW then note1 ++ ["counting very-low persistence"]
      else if E_VLOW + EPS < e ∧ e ≤ E_LOW_MAX + EPS ∧ low2 < N_LOW then
        note1 ++ ["counting low persistence"]
      else note1
    let (hold2, hreason2, note3) :=
      if 0 < hold1 ∧ hreason1 = "VERY_LOW_PERSIST" ∧ E_VLOW + EPS < e then
        (0, "", note2 ++ ["hold ended early (E>very-low)"])
      else if 0 < hold1 ∧ hreason1 = "LOW_PERSIST" ∧ E_LOW_MAX + EPS < e then
        (0, "", note2 ++ ["hold ended early (E>low)"])
      else (hold1, hreason1, note2)
    let dropFires : Bool :=
      match drp with
      | some d => decide (S_DROP < d)
      | none => false
    let (alert1, reason1, trig, hold3, hreason3, note4) :=
      if dropFires then ("ON", "DROP_EVENT", true, hold2, hreason2, note3)
      else if vlow2 = N_VLOW then
        ("ON", "VERY_LOW_PERSIST", true, HOLD_VLOW, "VERY_LOW_PERSIST", note3)
      else if low2 = N_LOW ∧ E_VLOW + EPS < e then
        ("ON", "LOW_PERSIST", true, HOLD_LOW, "LOW_PERSIST", note3)
      else ("OFF", "NO_TRIGGER", false, hold2, hreason2, note3)
    let (alert2, reason2, note5) :=
      if trig = false ∧ 0 < hold3 then
        ("ON", hreason3, note4 ++ ["holding ON (" ++ toString hold3 ++ " min left)"])
      else (alert1, reason1, note4)
    let (hold4, note6) :=
      if alert2 = "ON" ∧ (reason2 = "VERY_LOW_PERSIST" ∨ reason2 = "LOW_PERSIST")
          ∧ 0 < hold3 then
        (hold3 - 1,
          if hold3 - 1 = 0 then note5 ++ ["hold completed -> next OFF unless retrigger"]
          else note5)
      else (hold3, note5)
    { row := { minute := i, spo2 := raw, e := e, ve := ve, drop := drp,
               alert := alert2, reason := reason2, note := note6 },
      state := { prev_e := some e, low_streak := low2, vlow_streak := vlow2,
                 hold_left := hold4, hold_reason := hreason3 },
      triggered := trig, holdAtDecide := hold2 }

/-- The loop of `compute_table`, starting from state `st` at minute `i`. -/
def runFrom (st : EngineState) (i : Nat) : List Int → List StepOut
  | [] => []
  | raw :: rest =>
      let r := step st i raw
      r :: runFrom r.state (i + 1) rest

/-- Initial loop state of `compute_table` (lines 100-108). -/
def initState : EngineState :=
  { prev_e := none, low_streak := 0, vlow_streak := 0, hold_left := 0, hold_reason := "" }

/-- The full row trace of `compute_table` for a series. -/
def computeRows (series : List Int) : List StepOut := runFrom initState 1 series

/-- Display rounding to 4 decimal digits (pandas `.round(4)`, lines 253-255). -/
def roundTo4 (x : ℚ) : ℚ := ((round (x * 10000) : ℤ) : ℚ) / 10000

/-- Rounds the display fields of a row (lines 253-255). -/
def roundRow (r : RowOut) : RowOut :=
  { r with e := roundTo4 r.e, ve := r.ve.map roundTo4, drop := r.drop.map roundTo4 }

/-- `compute_table` (lines 98-268).  The final stage builds a pandas DataFrame
from the accumulated rows and evaluates `df["e"].round(4)` (line 253); on an
empty row list `pd.DataFrame([])` has no columns, so the `"e"` column lookup
raises `KeyError` — modelled as `Except.error`.  On a non-empty row list the
lookup succeeds and the rounded, renamed table is returned. -/
def compute_table (series : List Int) : Except String (List RowOut) :=
  let rows := (computeRows series).map (fun r => r.row)
  if rows.isEmpty then Except.error "KeyError: e"
  else Except.ok (rows.map roundRow)

/-- Decision table transcribing the spec's strict priority list (section 4.5):
floor, acute drop, critical persistence on exact hit, caution persistence on
exact hit outside the critical band, active hold, otherwise no trigger. -/
def priorityDecision (floorB dropB : Bool) (vlowS lowS : Nat) (inVlow holdActive : Bool)
    (holdReason : String) : String × String :=
  if floorB then ("ON*", "LIMIT_E0")
  else if dropB then ("ON", "DROP_EVENT")
  else if vlowS = N_VLOW then ("ON", "VERY_LOW_PERSIST")
  else if lowS = N_LOW ∧ inVlow = false then ("ON", "LOW_PERSIST")
  else if holdActive then ("ON", holdReason)
  else ("OFF", "NO_TRIGGER")

/-- The acute-drop test exactly as line 204 evaluates it from the previous
reserve: `drop is not None and drop > S_DROP`. -/
def dropFired (pe : Option ℚ) (e : ℚ) : Bool :=
  match pe with
  | none => false
  | some p => decide (S_DROP < max 0 (-(e - p)))

/-- The spec's locked scenario series. -/
def scenarioSeries : List Int := [93, 91, 90, 89, 88, 89, 89, 91, 92]

/-- Eight consecutive samples of 91: the low band is entered at once and the
caution persistence rule fires at minute 5. -/
def repSeries : List Int := List.replicate 8 91

/-- A state in which the caution streak is one short of its trigger. -/
def trigState : EngineState :=
  { prev_e := some (11 / 36), low_streak := 4, vlow_streak := 0,
    hold_left := 0, hold_reason := "" }

/-- A state in the middle of a caution hold with 2 minutes remaining. -/
def contState : EngineState :=
  { prev_e := some (7 / 16), low_streak := 6, vlow_streak := 0,
    hold_left := 2, hold_reason := "LOW_PERSIST" }

/-- A state holding a caution alert that is about to leave the low band. -/
def cancelState : EngineState :=
  { prev_e := some (7 / 16), low_streak := 2, vlow_streak := 0,
    hold_left := 2, hold_reason := "LOW_PERSIST" }

/-- The clamped sample never exceeds 88 when the raw sample does not. -/
theorem clamp_spo2_le_of_le (x : Int) (h : x ≤ 88) : clamp_spo2 x ≤ 88 :=
  max_le (by norm_num) (le_trans (min_le_right _ _) h)

/-- The clamped sample is at most 100. -/
theorem clamp_spo2_le100 (x : Int) : clamp_spo2 x ≤ 100 :=
  max_le (by norm_num) (min_le_left _ _)

/-- The clamped sample stays at least 89 when the raw sample is. -/
theorem clamp_spo2_ge_of_ge (x : Int) (h : 89 ≤ x) : 89 ≤ clamp_spo2 x :=
  le_max_of_le_right (le_min (by norm_num) h)

/-- Samples at or below the bad reference saturate the reserve at 0. -/
theorem spo2_to_e_floor (x : Int) (h : x ≤ 88) : spo2_to_e x = 0 := by
  have hs : ((clamp_spo2 x : Int) : ℚ) ≤ 88 := by
    exact_mod_cast clamp_spo2_le_of_le x h
  simp only [spo2_to_e, GOOD_SPO2, BAD_SPO2, DENOM]
  split_ifs with h1 h2
  · linarith [div_nonneg (by linarith : (0:ℚ) ≤ 100 - ((clamp_spo2 x : Int) : ℚ))
      (by norm_num : (0:ℚ) ≤ 100 - 88)]
  · ring
  · have hge : (1 : ℚ) ≤ (100 - ((clamp_spo2 x : Int) : ℚ)) / (100 - 88) := by
      rw [le_div_iff₀ (by norm_num : (0:ℚ) < 100 - 88)]
      linarith
    have heq : (100 - ((clamp_spo2 x : Int) : ℚ)) / (100 - 88) = 1 :=
      le_antisymm (not_lt.mp h2) hge
    rw [heq]; ring

/-- Samples at or above the good reference saturate the reserve at 1. -/
theorem spo2_to_e_good (x : Int) (h : 100 ≤ x) : spo2_to_e x = 1 := by
  have hs : ((clamp_spo2 x : Int) : ℚ) = 100 := by
    have h1 : clamp_spo2 x = 100 := by
      have : min 100 x = 100 := min_eq_left h
      simp [clamp_spo2, this]
    exact_mod_cast congrArg (fun n : Int => (n : ℚ)) h1
  simp only [spo2_to_e, GOOD_SPO2, BAD_SPO2, DENOM, hs]
  norm_num

/-- Integer samples of 89 or more keep the reserve at or above 23/144. -/
theorem spo2_to_e_of_ge89 (x : Int) (h : 89 ≤ x) : 23 / 144 ≤ spo2_to_e x := by
  have hs1 : (89 : ℚ) ≤ ((clamp_spo2 x : Int) : ℚ) := by exact_mod_cast clamp_spo2_ge_of_ge x h
  have hs2 : ((clamp_spo2 x : Int) : ℚ) ≤ 100 := by exact_mod_cast clamp_spo2_le100 x
  simp only [spo2_to_e, GOOD_SPO2, BAD_SPO2, DENOM]
  have ht0 : (0 : ℚ) ≤ (100 - ((clamp_spo2 x : Int) : ℚ)) / (100 - 88) := by
    apply div_nonneg <;> linarith
  have ht1 : (100 - ((clamp_spo2 x : Int) : ℚ)) / (100 - 88) ≤ 11 / 12 := by
    rw [div_le_iff₀ (by norm_num : (0:ℚ) < 100 - 88)]
    linarith
  split_ifs with h1 h2
  · linarith
  · linarith
  · nlinarith [mul_self_le_mul_self ht0 ht1]

/-- Key dead-band fact: an integer sample either saturates the reserve at 0
or lands strictly above the very-low boundary plus tolerance.  (A sample of
89 gives reserve 23/144 which already exceeds 0.1597 + 1e-9.) -/
theorem spo2_to_e_dichotomy (x : Int) :
    spo2_to_e x = 0 ∨ E_VLOW + EPS < spo2_to_e x := by
  rcases le_or_lt x 88 with h | h
  · exact Or.inl (spo2_to_e_floor x h)
  · refine Or.inr ?_
    have h1 := spo2_to_e_of_ge89 x (by omega)
    have hlt : E_VLOW + EPS < 23 / 144 := by norm_num [E_VLOW, EPS]
    linarith

/-- The very-low boundary lies below the low boundary. -/
theorem thresh_order1 : E_VLOW + EPS ≤ E_LOW_MAX + EPS := by
  norm_num [E_VLOW, E_LOW_MAX, EPS]

/-- The low boundary lies below the recovery comparison point. -/
theorem thresh_order2 : E_LOW_MAX + EPS < E_RESET - EPS := by
  norm_num [E_LOW_MAX, E_RESET, EPS]

/-- The very-low boundary lies below the recovery comparison point. -/
theorem thresh_order3 : E_VLOW + EPS < E_RESET - EPS := by
  norm_num [E_VLOW, E_RESET, EPS]

/-- The drop threshold is positive. -/
theorem sdrop_pos : ¬ (S_DROP < 0) := by norm_num [S_DROP]

/-- A persistence rule fires only at the exact hit of its streak on the
trigger length; the firing step also arms the matching hold (already
decremented once on the trigger step itself) and records the rule. -/
theorem persist_trigger_spec (st : EngineState) (i : Nat) (raw : Int) :
    ((step st i raw).triggered = true → (step st i raw).row.reason = "VERY_LOW_PERSIST" →
      (step st i raw).state.vlow_streak = N_VLOW ∧ st.vlow_streak = N_VLOW - 1 ∧
      (step st i raw).state.hold_left = HOLD_VLOW - 1 ∧
      (step st i raw).state.hold_reason = "VERY_LOW_PERSIST") ∧
    ((step st i raw).triggered = true → (step st i raw).row.reason = "LOW_PERSIST" →
      (step st i raw).state.low_streak = N_LOW ∧ st.low_streak = N_LOW - 1 ∧
      (step st i raw).state.hold_left = HOLD_LOW - 1 ∧
      (step st i raw).state.hold_reason = "LOW_PERSIST") := by
  by_cases c0 : spo2_to_e raw ≤ EPS
  · simp [step, c0]
  · by_cases c1 : E_RESET - EPS ≤ spo2_to_e raw
    · have h2 : ¬ (spo2_to_e raw ≤ E_LOW_MAX + EPS) := by
        intro hc; linarith [thresh_order2]
      have h3 : ¬ (spo2_to_e raw ≤ E_VLOW + EPS) := by
        intro hc; linarith [thresh_order3]
      cases hp : st.prev_e with
      | none => simp [step, c0, c1, h2, h3, hp, N_VLOW, N_LOW, HOLD_VLOW, HOLD_LOW]
      | some p =>
          by_cases hd : S_DROP < p - spo2_to_e raw <;>
            simp [step, c0, c1, h2, h3, hp, hd, sdrop_pos, N_VLOW, N_LOW, HOLD_VLOW, HOLD_LOW]
    · by_cases c3 : spo2_to_e raw ≤ E_VLOW + EPS
      · have c2 : spo2_to_e raw ≤ E_LOW_MAX + EPS := le_trans c3 thresh_order1
        have nc3 : ¬ (E_VLOW + EPS < spo2_to_e raw) := not_lt.mpr c3
        by_cases tv : st.vlow_streak + 1 = 3 <;>
          cases hp : st.prev_e with
        | none =>
            simp [step, c0, c1, c2, c3, nc3, tv, hp, N_VLOW, N_LOW, HOLD_VLOW, HOLD_LOW] <;>
              omega
        | some p =>
            by_cases hd : S_DROP < p - spo2_to_e raw <;>
              simp [step, c0, c1, c2, c3, nc3, tv, hp, hd, sdrop_pos, N_VLOW, N_LOW,
                HOLD_VLOW, HOLD_LOW] <;> omega
      · by_cases c2 : spo2_to_e raw ≤ E_LOW_MAX + EPS
        · have c3p : E_VLOW + EPS < spo2_to_e raw := not_le.mp c3
          by_cases tl : st.low_streak + 1 = 5 <;>
            cases hp : st.prev_e with
          | none =>
              simp [step, c0, c1, c2, c3, c3p, tl, hp, N_VLOW, N_LOW, HOLD_VLOW, HOLD_LOW] <;>
                omega
          | some p =>
              by_cases hd : S_DROP < p - spo2_to_e raw <;>
                simp [step, c0, c1, c2, c3, c3p, tl, hp, hd, sdrop_pos, N_VLOW, N_LOW,
                  HOLD_VLOW, HOLD_LOW] <;> omega
        · cases hp : st.prev_e with
          | none => simp [step, c0, c1, c2, c3, hp, N_VLOW, N_LOW, HOLD_VLOW, HOLD_LOW]
          | some p =>
              by_cases hd : S_DROP < p - spo2_to_e raw <;>
                simp [step, c0, c1, c2, c3, hp, hd, sdrop_pos, N_VLOW, N_LOW, HOLD_VLOW,
                  HOLD_LOW]

/-- Once the hold timer is 0, a step that fires no rule keeps it at 0 and
emits OFF: an expired or cancelled hold asserts nothing on later steps. -/
theorem hold_stays_zero (st : EngineState) (i : Nat) (raw : Int)
    (h : st.hold_left = 0) (hnt : (step st i raw).triggered = false) :
    (step st i raw).state.hold_left = 0 ∧ (step st i raw).row.alert = "OFF" := by
  by_cases c0 : spo2_to_e raw ≤ EPS
  · simp [step, c0] at hnt
  · by_cases c1 : E_RESET - EPS ≤ spo2_to_e raw
    · have h2 : ¬ (spo2_to_e raw ≤ E_LOW_MAX + EPS) := by
        intro hc; linarith [thresh_order2]
      have h3 : ¬ (spo2_to_e raw ≤ E_VLOW + EPS) := by
        intro hc; linarith [thresh_order3]
      cases hp : st.prev_e with
      | none => simp [step, c0, c1, h, h2, h3, hp, N_VLOW, N_LOW]
      | some p =>
          by_cases hd : S_DROP < p - spo2_to_e raw <;>
            simp [step, c0, c1, h, h2, h3, hp, hd, sdrop_pos, N_VLOW, N_LOW] at hnt ⊢
    · by_cases c3 : spo2_to_e raw ≤ E_VLOW + EPS
      · have c2 : spo2_to_e raw ≤ E_LOW_MAX + EPS := le_trans c3 thresh_order1
        have nc3 : ¬ (E_VLOW + EPS < spo2_to_e raw) := not_lt.mpr c3
        by_cases tv : st.vlow_streak + 1 = 3 <;>
          cases hp : st.prev_e with
        | none =>
            simp [step, c0, c1, c2, c3, nc3, tv, h, hp, N_VLOW, N_LOW] at hnt ⊢
        | some p =>
            by_cases hd : S_DROP < p - spo2_to_e raw <;>
              simp [step, c0, c1, c2, c3, nc3, tv, h, hp, hd, sdrop_pos, N_VLOW, N_LOW] at hnt ⊢
      · by_cases c2 : spo2_to_e raw ≤ E_LOW_MAX + EPS
        · have c3p : E_VLOW + EPS < spo2_to_e raw := not_le.mp c3
          by_cases tl : st.low_streak + 1 = 5 <;>
            cases hp : st.prev_e with
          | none =>
              simp [step, c0, c1, c2, c3, c3p, tl, h, hp, N_VLOW, N_LOW] at hnt ⊢
          | some p =>
              by_cases hd : S_DROP < p - spo2_to_e raw <;>
                simp [step, c0, c1, c2, c3, c3p, tl, h, hp, hd, sdrop_pos, N_VLOW, N_LOW] at hnt ⊢
        · cases hp : st.prev_e with
          | none => simp [step, c0, c1, c2, c3, h, hp, N_VLOW, N_LOW]
          | some p =>
              by_cases hd : S_DROP < p - spo2_to_e raw <;>
                simp [step, c0, c1, c2, c3, h, hp, hd, sdrop_pos, N_VLOW, N_LOW] at hnt ⊢

/-- When a hold is active and the reserve leaves the arming band or reaches
the recovery comparison point, the hold is cancelled inside the same step:
the cancellation is annotated, the decision-point hold value is 0, and
absent a fresh trigger the step emits OFF with the timer left at 0. -/
theorem hold_cancel_core (st : EngineState) (i : Nat) (raw : Int)
    (hh : 0 < st.hold_left)
    (hc : (st.hold_reason = "VERY_LOW_PERSIST" ∧ E_VLOW + EPS < spo2_to_e raw) ∨
          (st.hold_reason = "LOW_PERSIST" ∧ E_LOW_MAX + EPS < spo2_to_e raw) ∨
          E_RESET - EPS ≤ spo2_to_e raw) :
    ((("hold cancelled (E>=E_reset)") ∈ (step st i raw).row.note) ∨
     (("hold ended early (E>very-low)") ∈ (step st i raw).row.note) ∨
     (("hold ended early (E>low)") ∈ (step st i raw).row.note)) ∧
    (step st i raw).holdAtDecide = 0 ∧
    ((step st i raw).triggered = false →
      (step st i raw).state.hold_left = 0 ∧ (step st i raw).row.alert = "OFF") := by
  have epsvlow : EPS < E_VLOW + EPS := by norm_num [E_VLOW]
  have epslow : EPS < E_LOW_MAX + EPS := by norm_num [E_LOW_MAX]
  have epsreset : EPS < E_RESET - EPS := by norm_num [E_RESET, EPS]
  have c0 : ¬ (spo2_to_e raw ≤ EPS) := by
    rcases hc with ⟨_, hb⟩ | ⟨_, hb⟩ | hb <;> intro hcc <;> linarith
  rcases hc with ⟨hr, hb⟩ | ⟨hr, hb⟩ | hb
  · -- very-low hold, reserve left the very-low band
    have nc3 : ¬ (spo2_to_e raw ≤ E_VLOW + EPS) := not_le.mpr hb
    by_cases c1 : E_RESET - EPS ≤ spo2_to_e raw
    · have h2 : ¬ (spo2_to_e raw ≤ E_LOW_MAX + EPS) := by
        intro hcc; linarith [thresh_order2]
      cases hp : st.prev_e with
      | none => simp [step, c0, c1, h2, nc3, hh, hr, hp, N_VLOW, N_LOW, HOLD_VLOW, HOLD_LOW]
      | some p =>
          by_cases hd : S_DROP < p - spo2_to_e raw <;>
            simp [step, c0, c1, h2, nc3, hh, hr, hp, hd, sdrop_pos, N_VLOW, N_LOW, HOLD_VLOW, HOLD_LOW]
    · by_cases c2 : spo2_to_e raw ≤ E_LOW_MAX + EPS
      · by_cases tl : st.low_streak + 1 = 5 <;>
          cases hp : st.prev_e with
        | none => simp [step, c0, c1, c2, nc3, hb, tl, hh, hr, hp, N_VLOW, N_LOW, HOLD_VLOW, HOLD_LOW]
        | some p =>
            by_cases hd : S_DROP < p - spo2_to_e raw <;>
              simp [step, c0, c1, c2, nc3, hb, tl, hh, hr, hp, hd, sdrop_pos, N_VLOW, N_LOW, HOLD_VLOW, HOLD_LOW]
      · cases hp : st.prev_e with
        | none => simp [step, c0, c1, c2, nc3, hb, hh, hr, hp, N_VLOW, N_LOW, HOLD_VLOW, HOLD_LOW]
        | some p =>
            by_cases hd : S_DROP < p - spo2_to_e raw <;>
              simp [step, c0, c1, c2, nc3, hb, hh, hr, hp, hd, sdrop_pos, N_VLOW, N_LOW, HOLD_VLOW, HOLD_LOW]
  · -- low hold, reserve left the low band
    have nc2 : ¬ (spo2_to_e raw ≤ E_LOW_MAX + EPS) := not_le.mpr hb
    have nc3 : ¬ (spo2_to_e raw ≤ E_VLOW + EPS) := by
      intro hcc; exact nc2 (le_trans hcc thresh_order1)
    have hrne : st.hold_reason ≠ "VERY_LOW_PERSIST" := by simp [hr]
    by_cases c1 : E_RESET - EPS ≤ spo2_to_e raw <;>
      cases hp : st.prev_e with
    | none => simp [step, c0, c1, nc2, nc3, hb, hh, hr, hrne, hp, N_VLOW, N_LOW, HOLD_VLOW, HOLD_LOW]
    | some p =>
        by_cases hd : S_DROP < p - spo2_to_e raw <;>
          simp [step, c0, c1, nc2, nc3, hb, hh, hr, hrne, hp, hd, sdrop_pos, N_VLOW, N_LOW, HOLD_VLOW, HOLD_LOW]
  · -- recovery
    have h2 : ¬ (spo2_to_e raw ≤ E_LOW_MAX + EPS) := by
      intro hcc; linarith [thresh_order2]
    have h3 : ¬ (spo2_to_e raw ≤ E_VLOW + EPS) := by
      intro hcc; linarith [thresh_order3]
    cases hp : st.prev_e with
    | none => simp [step, c0, hb, h2, h3, hh, hp, N_VLOW, N_LOW, HOLD_VLOW, HOLD_LOW]
    | some p =>
        by_cases hd : S_DROP < p - spo2_to_e raw <;>
          simp [step, c0, hb, h2, h3, hh, hp, hd, sdrop_pos, N_VLOW, N_LOW, HOLD_VLOW, HOLD_LOW]

/-- While a hold is armed, the reserve stays in the arming band, and no rule
fires, the step keeps the alert ON under the armed reason, reports the
remaining minutes, and then decrements the timer. -/
theorem hold_continuation (st : EngineState) (i : Nat) (raw : Int)
    (hh : 0 < st.hold_left)
    (hband : (st.hold_reason = "VERY_LOW_PERSIST" ∧ EPS < spo2_to_e raw ∧
                spo2_to_e raw ≤ E_VLOW + EPS) ∨
             (st.hold_reason = "LOW_PERSIST" ∧ EPS < spo2_to_e raw ∧
                spo2_to_e raw ≤ E_LOW_MAX + EPS))
    (hnt : (step st i raw).triggered = false) :
    (step st i raw).row.alert = "ON" ∧ (step st i raw).row.reason = st.hold_reason ∧
    (step st i raw).state.hold_left = st.hold_left - 1 ∧
    (step st i raw).state.hold_reason = st.hold_reason ∧
    ("holding ON (" ++ toString st.hold_left ++ " min left)") ∈ (step st i raw).row.note := by
  rcases hband with ⟨hr, he, hb⟩ | ⟨hr, he, hb⟩
  · -- very-low hold, still in the very-low band
    have c0 : ¬ (spo2_to_e raw ≤ EPS) := not_le.mpr he
    have c1 : ¬ (E_RESET - EPS ≤ spo2_to_e raw) := by
      intro hcc; linarith [thresh_order3]
    have c2 : spo2_to_e raw ≤ E_LOW_MAX + EPS := le_trans hb thresh_order1
    have nc3 : ¬ (E_VLOW + EPS < spo2_to_e raw) := not_lt.mpr hb
    by_cases tv : st.vlow_streak + 1 = 3 <;>
      cases hp : st.prev_e with
    | none =>
        simp [step, c0, c1, c2, hb, nc3, tv, hh, hr, hp, N_VLOW, N_LOW, HOLD_VLOW,
          HOLD_LOW] at hnt ⊢ <;> split_ifs <;> simp
    | some p =>
        by_cases hd : S_DROP < p - spo2_to_e raw <;>
          simp [step, c0, c1, c2, hb, nc3, tv, hh, hr, hp, hd, sdrop_pos, N_VLOW, N_LOW,
            HOLD_VLOW, HOLD_LOW] at hnt ⊢ <;> split_ifs <;> simp
  · -- low hold, still in the low band
    have c0 : ¬ (spo2_to_e raw ≤ EPS) := not_le.mpr he
    have c1 : ¬ (E_RESET - EPS ≤ spo2_to_e raw) := by
      intro hcc; linarith [thresh_order2]
    have nc2 : ¬ (E_LOW_MAX + EPS < spo2_to_e raw) := not_lt.mpr hb
    have hrne : st.hold_reason ≠ "VERY_LOW_PERSIST" := by simp [hr]
    by_cases c3 : spo2_to_e raw ≤ E_VLOW + EPS
    · have nc3 : ¬ (E_VLOW + EPS < spo2_to_e raw) := not_lt.mpr c3
      by_cases tv : st.vlow_streak + 1 = 3 <;>
        cases hp : st.prev_e with
      | none =>
          simp [step, c0, c1, hb, nc2, c3, nc3, tv, hh, hr, hrne, hp, N_VLOW, N_LOW,
            HOLD_VLOW, HOLD_LOW] at hnt ⊢ <;> split_ifs <;> simp
      | some p =>
          by_cases hd : S_DROP < p - spo2_to_e raw <;>
            simp [step, c0, c1, hb, nc2, c3, nc3, tv, hh, hr, hrne, hp, hd, sdrop_pos,
              N_VLOW, N_LOW, HOLD_VLOW, HOLD_LOW] at hnt ⊢ <;> split_ifs <;> simp
    · have c3p : E_VLOW + EPS < spo2_to_e raw := not_le.mp c3
      by_cases tl : st.low_streak + 1 = 5 <;>
        cases hp : st.prev_e with
      | none =>
          simp [step, c0, c1, hb, nc2, c3, c3p, tl, hh, hr, hrne, hp, N_VLOW, N_LOW,
            HOLD_VLOW, HOLD_LOW] at hnt ⊢ <;> split_ifs <;> simp
      | some p =>
          by_cases hd : S_DROP < p - spo2_to_e raw <;>
            simp [step, c0, c1, hb, nc2, c3, c3p, tl, hh, hr, hrne, hp, hd, sdrop_pos,
              N_VLOW, N_LOW, HOLD_VLOW, HOLD_LOW] at hnt ⊢ <;> split_ifs <;> simp

/-- If the very-low streak is 0 and no very-low hold is recorded, one step
keeps it so and cannot emit reason VERY_LOW_PERSIST (uses the dead-band
dichotomy for integer samples). -/
theorem step_no_vlow (st : EngineState) (i : Nat) (raw : Int)
    (hv : st.vlow_streak = 0) (hr : st.hold_reason ≠ "VERY_LOW_PERSIST") :
    (step st i raw).row.reason ≠ "VERY_LOW_PERSIST" ∧
    (step st i raw).state.vlow_streak = 0 ∧
    (step st i raw).state.hold_reason ≠ "VERY_LOW_PERSIST" := by
  rcases spo2_to_e_dichotomy raw with he | he
  · have c0 : spo2_to_e raw ≤ EPS := by rw [he]; norm_num [EPS]
    simp [step, c0]
  · have c0 : ¬ (spo2_to_e raw ≤ EPS) := by
      have : EPS < E_VLOW + EPS := by norm_num [E_VLOW]
      intro hc; linarith
    have nc3 : ¬ (spo2_to_e raw ≤ E_VLOW + EPS) := not_le.mpr he
    by_cases c1 : E_RESET - EPS ≤ spo2_to_e raw
    · have h2 : ¬ (spo2_to_e raw ≤ E_LOW_MAX + EPS) := by
        intro hc; linarith [thresh_order2]
      cases hp : st.prev_e with
      | none => simp [step, c0, c1, h2, nc3, hv, hr, hp, N_VLOW, N_LOW, HOLD_VLOW, HOLD_LOW]
      | some p =>
          by_cases hd : S_DROP < p - spo2_to_e raw <;>
            simp [step, c0, c1, h2, nc3, hv, hr, hp, hd, sdrop_pos, N_VLOW, N_LOW,
              HOLD_VLOW, HOLD_LOW]
    · by_cases c2 : spo2_to_e raw ≤ E_LOW_MAX + EPS
      · by_cases tl : st.low_streak + 1 = 5 <;>
          cases hp : st.prev_e with
        | none =>
            simp [step, c0, c1, c2, he, nc3, tl, hv, hr, hp, N_VLOW, N_LOW, HOLD_VLOW,
              HOLD_LOW] <;> split_ifs <;> simp_all
        | some p =>
            by_cases hd : S_DROP < p - spo2_to_e raw <;>
              simp [step, c0, c1, c2, he, nc3, tl, hv, hr, hp, hd, sdrop_pos, N_VLOW, N_LOW,
                HOLD_VLOW, HOLD_LOW] <;> split_ifs <;> simp_all
      · cases hp : st.prev_e with
        | none =>
            simp [step, c0, c1, c2, nc3, hv, hr, hp, N_VLOW, N_LOW, HOLD_VLOW, HOLD_LOW] <;>
              split_ifs <;> simp_all
        | some p =>
            by_cases hd : S_DROP < p - spo2_to_e raw <;>
              simp [step, c0, c1, c2, nc3, hv, hr, hp, hd, sdrop_pos, N_VLOW, N_LOW,
                HOLD_VLOW, HOLD_LOW] <;> split_ifs <;> simp_all

/-- The very-low invariant of `step_no_vlow`, propagated along the loop. -/
theorem runFrom_no_vlow (l : List Int) :
    ∀ (st : EngineState) (i : Nat), st.vlow_streak = 0 → st.hold_reason ≠ "VERY_LOW_PERSIST" →
      ∀ r ∈ runFrom st i l, r.row.reason ≠ "VERY_LOW_PERSIST" ∧ r.state.vlow_streak = 0 := by
  induction l with
  | nil => intro st i _ _ r hr; simp [runFrom] at hr
  | cons raw rest ih =>
      intro st i hv hh r hr
      rcases List.mem_cons.mp hr with rfl | hmem
      · exact ⟨(step_no_vlow st i raw hv hh).1, (step_no_vlow st i raw hv hh).2.1⟩
      · exact ih (step st i raw).state (i + 1) (step_no_vlow st i raw hv hh).2.1
          (step_no_vlow st i raw hv hh).2.2 r hmem

/-- Every emitted row carries its minute index and its raw sample. -/
theorem step_minute_spo2 (st : EngineState) (i : Nat) (raw : Int) :
    (step st i raw).row.minute = i ∧ (step st i raw).row.spo2 = raw := by
  by_cases c0 : spo2_to_e raw ≤ EPS
  · simp [step, c0]
  · by_cases c1 : E_RESET - EPS ≤ spo2_to_e raw <;>
      by_cases c2 : spo2_to_e raw ≤ E_LOW_MAX + EPS <;>
      by_cases c3 : spo2_to_e raw ≤ E_VLOW + EPS <;>
      cases hp : st.prev_e <;>
      simp [step, c0, c1, c2, c3, hp]

/-- The loop emits exactly one row per input sample. -/
theorem runFrom_length (l : List Int) :
    ∀ (st : EngineState) (i : Nat), (runFrom st i l).length = l.length := by
  induction l with
  | nil => intro st i; rfl
  | cons raw rest ih => intro st i; simp [runFrom, ih]

/-- The minute column of the trace is the integer range from the start. -/
theorem runFrom_map_minute (l : List Int) :
    ∀ (st : EngineState) (i : Nat),
      (runFrom st i l).map (fun r => r.row.minute) = List.range' i l.length := by
  induction l with
  | nil => intro st i; rfl
  | cons raw rest ih =>
      intro st i
      simp [runFrom, List.range'_succ, (step_minute_spo2 st i raw).1, ih]

/-- The raw-sample column of the trace is the input list itself. -/
theorem runFrom_map_spo2 (l : List Int) :
    ∀ (st : EngineState) (i : Nat),
      (runFrom st i l).map (fun r => r.row.spo2) = l := by
  induction l with
  | nil => intro st i; rfl
  | cons raw rest ih =>
      intro st i
      simp [runFrom, (step_minute_spo2 st i raw).2, ih]

set_option maxHeartbeats 1600000 in
/-- C1 (counterexample): in the locked scenario the claim says the very-low
streak equals 1 at step 6 (raw 89); the code computes reserve 23/144 there,
which exceeds E_VLOW + EPS, so the very-low streak is 0, not 1. -/
theorem scenario_step6_vlow_not_one :
    ((computeRows scenarioSeries).get ⟨5, by decide⟩).state.vlow_streak ≠ 1 := by
  repeat
    first
    | rfl
    | norm_num [computeRows, runFrom, step, initState, scenarioSeries, spo2_to_e, clamp_spo2,
        GOOD_SPO2, BAD_SPO2, DENOM, S_DROP, P_FLAT, E_RESET, E_VLOW, E_LOW_MAX, N_VLOW, N_LOW,
        HOLD_VLOW, HOLD_LOW, EPS]
    | simp [computeRows, runFrom, step, initState, scenarioSeries, spo2_to_e, clamp_spo2,
        GOOD_SPO2, BAD_SPO2, DENOM, S_DROP, P_FLAT, E_RESET, E_VLOW, E_LOW_MAX, N_VLOW, N_LOW,
        HOLD_VLOW, HOLD_LOW, EPS]

set_option maxHeartbeats 1600000 in
/-- C1 (amended): on the locked scenario series, step 5 (raw 88) has reserve
exactly 0 with alert ON* and reason LIMIT_E0; step 6 (raw 89) leaves the
very-low streak at 0 (reserve 23/144 sits just above the very-low bound) and
begins a fresh low-band streak of 1 instead; steps 7-9 all emit OFF. -/
theorem scenario_run_amended :
    ((computeRows scenarioSeries).map
      (fun r => (r.row.alert, r.row.reason, r.state.vlow_streak, r.state.low_streak))) =
      [("OFF", "NO_TRIGGER", 0, 0), ("OFF", "NO_TRIGGER", 0, 1), ("OFF", "NO_TRIGGER", 0, 2),
       ("OFF", "NO_TRIGGER", 0, 3), ("ON*", "LIMIT_E0", 0, 0), ("OFF", "NO_TRIGGER", 0, 1),
       ("OFF", "NO_TRIGGER", 0, 2), ("OFF", "NO_TRIGGER", 0, 3), ("OFF", "NO_TRIGGER", 0, 0)] ∧
    ((computeRows scenarioSeries).get ⟨4, by decide⟩).row.e = 0 := by
  refine ⟨?_, ?_⟩ <;>
    norm_num [computeRows, runFrom, step, initState, scenarioSeries, spo2_to_e, clamp_spo2,
      GOOD_SPO2, BAD_SPO2, DENOM, S_DROP, P_FLAT, E_RESET, E_VLOW, E_LOW_MAX, N_VLOW, N_LOW,
      HOLD_VLOW, HOLD_LOW, EPS]

/-- C2: for every integer series, no emitted row carries reason
VERY_LOW_PERSIST and the very-low streak counter stays 0, because every
integer sample yields reserve 0 (consumed by the floor branch) or a reserve
strictly above the very-low bound plus tolerance. -/
theorem no_very_low_persist :
    (∀ x : Int, spo2_to_e x = 0 ∨ E_VLOW + EPS < spo2_to_e x) ∧
    (∀ series : List Int, ∀ r ∈ computeRows series,
      r.row.reason ≠ "VERY_LOW_PERSIST" ∧ r.state.vlow_streak = 0) :=
  ⟨spo2_to_e_dichotomy,
   fun series r hr =>
     runFrom_no_vlow series initState 1 rfl (by simp [initState]) r hr⟩

/-- C2 witness at the series [89, 89]: the first row neither carries reason
VERY_LOW_PERSIST nor a positive very-low streak. -/
theorem no_very_low_persist_witness :
    ((computeRows [89, 89]).get ⟨0, by decide⟩).row.reason ≠ "VERY_LOW_PERSIST" ∧
    ((computeRows [89, 89]).get ⟨0, by decide⟩).state.vlow_streak = 0 :=
  no_very_low_persist.2 [89, 89] _ (List.get_mem _ _ _)

/-- C3: a persistence rule fires (triggered step with that reason) only on a
step whose streak sits exactly at the trigger length, having just risen from
one below it; in particular it cannot re-fire while the streak climbs past
the trigger length, since the streak then differs from it. -/
theorem persistence_exact_hit_only (st : EngineState) (i : Nat) (raw : Int) :
    ((step st i raw).triggered = true → (step st i raw).row.reason = "VERY_LOW_PERSIST" →
      (step st i raw).state.vlow_streak = N_VLOW ∧ st.vlow_streak = N_VLOW - 1) ∧
    ((step st i raw).triggered = true → (step st i raw).row.reason = "LOW_PERSIST" →
      (step st i raw).state.low_streak = N_LOW ∧ st.low_streak = N_LOW - 1) :=
  ⟨fun h1 h2 => ⟨((persist_trigger_spec st i raw).1 h1 h2).1,
     ((persist_trigger_spec st i raw).1 h1 h2).2.1⟩,
   fun h1 h2 => ⟨((persist_trigger_spec st i raw).2 h1 h2).1,
     ((persist_trigger_spec st i raw).2 h1 h2).2.1⟩⟩

/-- C3 witness: from a state with low streak 4, a sample of 91 fires the
caution rule with the streak exactly at its trigger length 5. -/
theorem persistence_exact_hit_only_witness :
    (step trigState 6 91).triggered = true ∧
    (step trigState 6 91).row.reason = "LOW_PERSIST" ∧
    (step trigState 6 91).state.low_streak = N_LOW ∧ trigState.low_streak = N_LOW - 1 := by
  have ht : (step trigState 6 91).triggered = true := by
    repeat
      first
      | rfl
      | norm_num [step, trigState, spo2_to_e, clamp_spo2, GOOD_SPO2, BAD_SPO2, DENOM, S_DROP,
          P_FLAT, E_RESET, E_VLOW, E_LOW_MAX, N_VLOW, N_LOW, HOLD_VLOW, HOLD_LOW, EPS]
      | simp [step, trigState, spo2_to_e, clamp_spo2, GOOD_SPO2, BAD_SPO2, DENOM, S_DROP,
          P_FLAT, E_RESET, E_VLOW, E_LOW_MAX, N_VLOW, N_LOW, HOLD_VLOW, HOLD_LOW, EPS]
  have hrsn : (step trigState 6 91).row.reason = "LOW_PERSIST" := by
    repeat
      first
      | rfl
      | norm_num [step, trigState, spo2_to_e, clamp_spo2, GOOD_SPO2, BAD_SPO2, DENOM, S_DROP,
          P_FLAT, E_RESET, E_VLOW, E_LOW_MAX, N_VLOW, N_LOW, HOLD_VLOW, HOLD_LOW, EPS]
      | simp [step, trigState, spo2_to_e, clamp_spo2, GOOD_SPO2, BAD_SPO2, DENOM, S_DROP,
          P_FLAT, E_RESET, E_VLOW, E_LOW_MAX, N_VLOW, N_LOW, HOLD_VLOW, HOLD_LOW, EPS]
  exact ⟨ht, hrsn, ((persistence_exact_hit_only trigState 6 91).2 ht hrsn).1,
    ((persistence_exact_hit_only trigState 6 91).2 ht hrsn).2⟩

set_option maxHeartbeats 4000000 in
/-- C4 (counterexample): on eight consecutive samples of 91, the caution
rule fires at minute 5 and no cancellation, recovery, floor, or retrigger
occurs afterwards; yet the remaining duration is already 0 at minute 7 (the
second further step) and minute 8 emits OFF, so the hold does not keep the
alert asserted for 3 further steps as claimed. -/
theorem caution_hold_count_counterexample :
    (computeRows repSeries).map
      (fun r => (r.row.alert, r.row.reason, r.triggered, r.state.hold_left)) =
      [("OFF", "NO_TRIGGER", false, 0), ("OFF", "NO_TRIGGER", false, 0),
       ("OFF", "NO_TRIGGER", false, 0), ("OFF", "NO_TRIGGER", false, 0),
       ("ON", "LOW_PERSIST", true, 2), ("ON", "LOW_PERSIST", false, 1),
       ("ON", "LOW_PERSIST", false, 0), ("OFF", "NO_TRIGGER", false, 0)] := by
  repeat
    first
    | rfl
    | norm_num [computeRows, runFrom, step, initState, repSeries, spo2_to_e, clamp_spo2,
        List.replicate, GOOD_SPO2, BAD_SPO2, DENOM, S_DROP, P_FLAT, E_RESET, E_VLOW,
        E_LOW_MAX, N_VLOW, N_LOW, HOLD_VLOW, HOLD_LOW, EPS]
    | simp [computeRows, runFrom, step, initState, repSeries, spo2_to_e, clamp_spo2,
        List.replicate, GOOD_SPO2, BAD_SPO2, DENOM, S_DROP, P_FLAT, E_RESET, E_VLOW,
        E_LOW_MAX, N_VLOW, N_LOW, HOLD_VLOW, HOLD_LOW, EPS]

set_option maxHeartbeats 4000000 in
/-- C4 (amended): while a hold is armed and no rule fires, the alert stays
asserted under the armed reason with the remaining duration reported and
then decremented by one; the duration is also decremented on the trigger
step itself (arming leaves the configured length minus one), so the hold
keeps the alert asserted for 4 further steps after a critical-persistence
trigger and 2 further steps after a caution-persistence trigger, the
remaining duration reaching 0 exactly at the last held step, as the
eight-sample caution run shows concretely. -/
theorem hold_duration_after_trigger :
    (∀ (st : EngineState) (i : Nat) (raw : Int), 0 < st.hold_left →
      ((st.hold_reason = "VERY_LOW_PERSIST" ∧ EPS < spo2_to_e raw ∧
          spo2_to_e raw ≤ E_VLOW + EPS) ∨
       (st.hold_reason = "LOW_PERSIST" ∧ EPS < spo2_to_e raw ∧
          spo2_to_e raw ≤ E_LOW_MAX + EPS)) →
      (step st i raw).triggered = false →
      (step st i raw).row.alert = "ON" ∧ (step st i raw).row.reason = st.hold_reason ∧
      (step st i raw).state.hold_left = st.hold_left - 1 ∧
      (step st i raw).state.hold_reason = st.hold_reason ∧
      ("holding ON (" ++ toString st.hold_left ++ " min left)") ∈ (step st i raw).row.note) ∧
    (∀ (st : EngineState) (i : Nat) (raw : Int),
      ((step st i raw).triggered = true → (step st i raw).row.reason = "VERY_LOW_PERSIST" →
        (step st i raw).state.hold_left = HOLD_VLOW - 1) ∧
      ((step st i raw).triggered = true → (step st i raw).row.reason = "LOW_PERSIST" →
        (step st i raw).state.hold_left = HOLD_LOW - 1)) ∧
    ((computeRows repSeries).map (fun r => (r.row.alert, r.row.reason, r.state.hold_left)) =
      [("OFF", "NO_TRIGGER", 0), ("OFF", "NO_TRIGGER", 0), ("OFF", "NO_TRIGGER", 0),
       ("OFF", "NO_TRIGGER", 0), ("ON", "LOW_PERSIST", 2), ("ON", "LOW_PERSIST", 1),
       ("ON", "LOW_PERSIST", 0), ("OFF", "NO_TRIGGER", 0)]) := by
  refine ⟨hold_continuation, ?_, ?_⟩
  · intro st i raw
    exact ⟨fun h1 h2 => ((persist_trigger_spec st i raw).1 h1 h2).2.2.1,
      fun h1 h2 => ((persist_trigger_spec st i raw).2 h1 h2).2.2.1⟩
  · repeat
      first
      | rfl
      | norm_num [computeRows, runFrom, step, initState, repSeries, spo2_to_e, clamp_spo2,
          List.replicate, GOOD_SPO2, BAD_SPO2, DENOM, S_DROP, P_FLAT, E_RESET, E_VLOW,
          E_LOW_MAX, N_VLOW, N_LOW, HOLD_VLOW, HOLD_LOW, EPS]
      | simp [computeRows, runFrom, step, initState, repSeries, spo2_to_e, clamp_spo2,
          List.replicate, GOOD_SPO2, BAD_SPO2, DENOM, S_DROP, P_FLAT, E_RESET, E_VLOW,
          E_LOW_MAX, N_VLOW, N_LOW, HOLD_VLOW, HOLD_LOW, EPS]

/-- C4 witness: from a caution hold with 2 minutes left and a sample of 91
(in band, no trigger), the step stays ON under LOW_PERSIST, reports 2
minutes, and decrements the timer to 1. -/
theorem hold_duration_after_trigger_witness :
    (step contState 6 91).row.alert = "ON" ∧
    (step contState 6 91).row.reason = contState.hold_reason ∧
    (step contState 6 91).state.hold_left = contState.hold_left - 1 ∧
    (step contState 6 91).state.hold_reason = contState.hold_reason ∧
    ("holding ON (" ++ toString contState.hold_left ++ " min left)")
      ∈ (step contState 6 91).row.note := by
  have hE : spo2_to_e 91 = 7 / 16 := by
    norm_num [spo2_to_e, clamp_spo2, GOOD_SPO2, BAD_SPO2, DENOM]
  have f1 : ¬ ((7 : ℚ) / 16 ≤ EPS) := by norm_num [EPS]
  have f2 : ¬ (E_RESET - EPS ≤ (7 : ℚ) / 16) := by norm_num [E_RESET, EPS]
  have f3 : (7 : ℚ) / 16 ≤ E_LOW_MAX + EPS := by norm_num [E_LOW_MAX, EPS]
  have f4 : ¬ ((7 : ℚ) / 16 ≤ E_VLOW + EPS) := by norm_num [E_VLOW, EPS]
  have hd : ¬ (S_DROP < (7 : ℚ) / 16 - 7 / 16) := by norm_num [S_DROP]
  have hnt : (step contState 6 91).triggered = false := by
    simp [step, contState, hE, f1, f2, f3, f4, hd, sdrop_pos, N_VLOW, N_LOW, HOLD_VLOW,
      HOLD_LOW]
  exact hold_duration_after_trigger.1 contState 6 91 (by norm_num [contState])
    (Or.inr ⟨rfl, by rw [hE]; exact ⟨by norm_num [EPS], f3⟩⟩) hnt

/-- C5: a step whose reserve is at or above the recovery threshold ends with
both streaks and the hold timer at zero, and its row is OFF unless the
acute-drop rule fires on that exact step (the floor rule cannot, since the
reserve is far above zero). -/
theorem recovery_clears_state (st : EngineState) (i : Nat) (raw : Int)
    (h : E_RESET ≤ spo2_to_e raw) :
    (step st i raw).state.low_streak = 0 ∧ (step st i raw).state.vlow_streak = 0 ∧
    (step st i raw).state.hold_left = 0 ∧
    ((step st i raw).row.alert = "OFF" ∨
      ((step st i raw).row.alert = "ON" ∧ (step st i raw).row.reason = "DROP_EVENT")) := by
  have hE : (5556 : ℚ) / 10000 ≤ spo2_to_e raw := by simpa [E_RESET] using h
  have h0 : ¬ (spo2_to_e raw ≤ EPS) := by
    simp only [EPS]; intro hc; norm_num at hc; linarith
  have h1 : E_RESET - EPS ≤ spo2_to_e raw := by
    have : E_RESET - EPS ≤ E_RESET := by norm_num [E_RESET, EPS]
    linarith [h]
  have h2 : ¬ (spo2_to_e raw ≤ E_LOW_MAX + EPS) := by
    intro hc
    have : E_LOW_MAX + EPS < E_RESET := by norm_num [E_LOW_MAX, EPS, E_RESET]
    linarith
  have h3 : ¬ (spo2_to_e raw ≤ E_VLOW + EPS) := by
    intro hc
    have : E_VLOW + EPS < E_RESET := by norm_num [E_VLOW, EPS, E_RESET]
    linarith
  cases hp : st.prev_e with
  | none => simp [step, h0, h1, h2, h3, hp, N_VLOW, N_LOW]
  | some p =>
      by_cases hd : S_DROP < p - spo2_to_e raw
      · simp [step, h0, h1, h2, h3, hp, hd, sdrop_pos, N_VLOW, N_LOW]
      · simp [step, h0, h1, h2, h3, hp, hd, sdrop_pos, N_VLOW, N_LOW]

/-- C5 witness: a sample of 93 has reserve 95/144, at or above the recovery
threshold, so the step from any state (here a mid-hold one) clears all
streaks and timers and emits OFF. -/
theorem recovery_clears_state_witness :
    (step contState 1 93).state.low_streak = 0 ∧ (step contState 1 93).state.vlow_streak = 0 ∧
    (step contState 1 93).state.hold_left = 0 ∧
    ((step contState 1 93).row.alert = "OFF" ∨
      ((step contState 1 93).row.alert = "ON" ∧
        (step contState 1 93).row.reason = "DROP_EVENT")) :=
  recovery_clears_state contState 1 93
    (by norm_num [E_RESET, spo2_to_e, clamp_spo2, GOOD_SPO2, BAD_SPO2, DENOM])

set_option maxHeartbeats 1600000 in
/-- C6: every step's alert and reason equal the first match of the spec's
strict priority list: floor (reserve exactly 0, ON*), acute drop, critical
persistence (streak exactly 3), caution persistence (streak exactly 5 and
the reserve not inside the critical band), active hold under the held
reason, otherwise OFF with NO_TRIGGER; in particular the caution rule never
fires on a step whose reserve lies inside the critical band. -/
theorem rule_priority_order (st : EngineState) (i : Nat) (raw : Int) :
    ((step st i raw).row.alert, (step st i raw).row.reason) =
      priorityDecision (decide (spo2_to_e raw = 0))
        (dropFired st.prev_e (spo2_to_e raw))
        (step st i raw).state.vlow_streak (step st i raw).state.low_streak
        (decide (spo2_to_e raw ≤ E_VLOW + EPS))
        (decide (0 < (step st i raw).holdAtDecide)) st.hold_reason := by
  have epslt : EPS < E_VLOW + EPS := by norm_num [E_VLOW]
  by_cases c0 : spo2_to_e raw ≤ EPS
  · have he0 : spo2_to_e raw = 0 := by
      rcases spo2_to_e_dichotomy raw with he | he
      · exact he
      · linarith
    have hz : (0 : ℚ) ≤ EPS := by norm_num [EPS]
    simp [step, priorityDecision, dropFired, c0, he0, hz]
  · have hne : ¬ (spo2_to_e raw = 0) := by
      intro hh; rw [hh] at c0; exact c0 (by norm_num [EPS])
    by_cases c1 : E_RESET - EPS ≤ spo2_to_e raw
    · have h2 : ¬ (spo2_to_e raw ≤ E_LOW_MAX + EPS) := by
        intro hc; linarith [thresh_order2]
      have h3 : ¬ (spo2_to_e raw ≤ E_VLOW + EPS) := by
        intro hc; linarith [thresh_order3]
      cases hp : st.prev_e with
      | none => simp [step, priorityDecision, dropFired, c0, hne, c1, h2, h3, hp, N_VLOW, N_LOW] <;> split_ifs <;> simp_all
      | some p =>
          by_cases hd : S_DROP < p - spo2_to_e raw <;>
            simp [step, priorityDecision, dropFired, c0, hne, c1, h2, h3, hp, hd, sdrop_pos,
              N_VLOW, N_LOW] <;> split_ifs <;> simp_all
    · by_cases c3 : spo2_to_e raw ≤ E_VLOW + EPS
      · have c2 : spo2_to_e raw ≤ E_LOW_MAX + EPS := le_trans c3 thresh_order1
        have nc3 : ¬ (E_VLOW + EPS < spo2_to_e raw) := not_lt.mpr c3
        by_cases tv : st.vlow_streak + 1 = 3 <;>
          cases hp : st.prev_e with
        | none =>
            simp [step, priorityDecision, dropFired, c0, hne, c1, c2, c3, nc3, tv, hp,
              N_VLOW, N_LOW] <;> split_ifs <;> simp_all
        | some p =>
            by_cases hd : S_DROP < p - spo2_to_e raw <;>
              simp [step, priorityDecision, dropFired, c0, hne, c1, c2, c3, nc3, tv, hp, hd,
                sdrop_pos, N_VLOW, N_LOW] <;> split_ifs <;> simp_all
      · by_cases c2 : spo2_to_e raw ≤ E_LOW_MAX + EPS
        · have c3p : E_VLOW + EPS < spo2_to_e raw := not_le.mp c3
          by_cases tl : st.low_streak + 1 = 5 <;>
            cases hp : st.prev_e with
          | none =>
              simp [step, priorityDecision, dropFired, c0, hne, c1, c2, c3, c3p, tl, hp,
                N_VLOW, N_LOW] <;> split_ifs <;> simp_all
          | some p =>
              by_cases hd : S_DROP < p - spo2_to_e raw <;>
                simp [step, priorityDecision, dropFired, c0, hne, c1, c2, c3, c3p, tl, hp, hd,
                  sdrop_pos, N_VLOW, N_LOW] <;> split_ifs <;> simp_all
        · cases hp : st.prev_e with
          | none => simp [step, priorityDecision, dropFired, c0, hne, c1, c2, c3, hp, N_VLOW, N_LOW] <;> split_ifs <;> simp_all
          | some p =>
              by_cases hd : S_DROP < p - spo2_to_e raw <;>
                simp [step, priorityDecision, dropFired, c0, hne, c1, c2, c3, hp, hd, sdrop_pos,
                  N_VLOW, N_LOW] <;> split_ifs <;> simp_all

/-- C7: while a hold is active, if the reserve leaves the arming band or
reaches the recovery comparison point, the hold is cancelled within that
step — annotated in the note, decision-point hold value 0, and (absent a
fresh trigger) the row is OFF with the timer at 0; moreover from any state
with a zero timer, a step firing no rule keeps the timer at 0 and emits
OFF, so the cancelled hold asserts nothing on later steps either. -/
theorem hold_early_cancellation (st : EngineState) (i : Nat) (raw : Int)
    (hh : 0 < st.hold_left)
    (hc : (st.hold_reason = "VERY_LOW_PERSIST" ∧ E_VLOW + EPS < spo2_to_e raw) ∨
          (st.hold_reason = "LOW_PERSIST" ∧ E_LOW_MAX + EPS < spo2_to_e raw) ∨
          E_RESET - EPS ≤ spo2_to_e raw) :
    (((("hold cancelled (E>=E_reset)") ∈ (step st i raw).row.note) ∨
      (("hold ended early (E>very-low)") ∈ (step st i raw).row.note) ∨
      (("hold ended early (E>low)") ∈ (step st i raw).row.note)) ∧
     (step st i raw).holdAtDecide = 0 ∧
     ((step st i raw).triggered = false →
       (step st i raw).state.hold_left = 0 ∧ (step st i raw).row.alert = "OFF")) ∧
    (∀ (st2 : EngineState) (j : Nat) (raw2 : Int), st2.hold_left = 0 →
      (step st2 j raw2).triggered = false →
      (step st2 j raw2).state.hold_left = 0 ∧ (step st2 j raw2).row.alert = "OFF") :=
  ⟨hold_cancel_core st i raw hh hc,
   fun st2 j raw2 h hnt => hold_stays_zero st2 j raw2 h hnt⟩

/-- C7 witness: a caution hold with 2 minutes left meets a sample of 92
(reserve 5/9, outside the low band, below recovery): the hold is cancelled
in that step, annotated, and the row is OFF. -/
theorem hold_early_cancellation_witness :
    ((("hold cancelled (E>=E_reset)") ∈ (step cancelState 3 92).row.note) ∨
     (("hold ended early (E>very-low)") ∈ (step cancelState 3 92).row.note) ∨
     (("hold ended early (E>low)") ∈ (step cancelState 3 92).row.note)) ∧
    (step cancelState 3 92).holdAtDecide = 0 ∧
    ((step cancelState 3 92).triggered = false →
      (step cancelState 3 92).state.hold_left = 0 ∧
      (step cancelState 3 92).row.alert = "OFF") :=
  (hold_early_cancellation cancelState 3 92 (by norm_num [cancelState])
    (Or.inr (Or.inl ⟨rfl, by
      norm_num [spo2_to_e, clamp_spo2, GOOD_SPO2, BAD_SPO2, DENOM, E_LOW_MAX, EPS]⟩))).1

/-- C8: every integer sample at or below the bad reference (88) yields
reserve exactly 0, and every integer sample at or above the good reference
(100) yields reserve exactly 1, samples outside the clamp range included. -/
theorem reserve_saturation (x : Int) :
    (x ≤ 88 → spo2_to_e x = 0) ∧ (100 ≤ x → spo2_to_e x = 1) :=
  ⟨spo2_to_e_floor x, spo2_to_e_good x⟩

/-- C8 witness: a sample of 60 (below bad, inside the clamp) gives reserve
0 and a sample of 104 (above the clamp bound) gives reserve 1. -/
theorem reserve_saturation_witness :
    spo2_to_e 60 = 0 ∧ spo2_to_e 104 = 1 :=
  ⟨(reserve_saturation 60).1 (by norm_num), (reserve_saturation 104).2 (by norm_num)⟩

/-- C9: on every non-empty integer series the evaluation returns one row
per sample: the row list has the series' length, its minute column is
1, 2, ..., n in order, and its raw-sample column is the input itself. -/
theorem evaluate_total_ordered (series : List Int) (hne : series ≠ []) :
    ∃ rows, compute_table series = Except.ok rows ∧ rows.length = series.length ∧
      rows.map (fun r => r.minute) = List.range' 1 series.length ∧
      rows.map (fun r => r.spo2) = series := by
  obtain ⟨s, rest, rfl⟩ := List.exists_cons_of_ne_nil hne
  refine ⟨((computeRows (s :: rest)).map (fun r => r.row)).map roundRow, ?_, ?_, ?_, ?_⟩
  · simp [compute_table, computeRows, runFrom]
  · simp [List.length_map, computeRows, runFrom_length]
  · have h1 : ∀ r : StepOut, (roundRow r.row).minute = r.row.minute := fun r => rfl
    simp only [List.map_map, Function.comp]
    simpa [h1, computeRows] using runFrom_map_minute (s :: rest) initState 1
  · have h2 : ∀ r : StepOut, (roundRow r.row).spo2 = r.row.spo2 := fun r => rfl
    simp only [List.map_map, Function.comp]
    simpa [h2, computeRows] using runFrom_map_spo2 (s :: rest) initState 1

/-- C9 witness at the series [90, 95]. -/
theorem evaluate_total_ordered_witness :
    ∃ rows, compute_table [90, 95] = Except.ok rows ∧ rows.length = ([90, 95] : List Int).length ∧
      rows.map (fun r => r.minute) = List.range' 1 ([90, 95] : List Int).length ∧
      rows.map (fun r => r.spo2) = [90, 95] :=
  evaluate_total_ordered [90, 95] (by simp)

/-- C10: on the empty series the row list is empty, so the pandas stage has
no column to round and `compute_table` fails with a KeyError instead of
returning an empty row sequence; on any non-empty series it succeeds, so
totality holds exactly under the non-empty precondition. -/
theorem empty_input_key_error :
    compute_table ([] : List Int) = Except.error "KeyError: e" ∧
    ∀ series : List Int, series ≠ [] → ∃ rows, compute_table series = Except.ok rows := by
  constructor
  · rfl
  · intro series hne
    obtain ⟨s, rest, rfl⟩ := List.exists_cons_of_ne_nil hne
    refine ⟨((computeRows (s :: rest)).map (fun r => r.row)).map roundRow, ?_⟩
    simp [compute_table, computeRows, runFrom]

/-- C10 witness: the singleton series [88] evaluates successfully. -/
theorem empty_input_key_error_witness :
    ∃ rows, compute_table [88] = Except.ok rows :=
  empty_input_key_error.2 [88] (by simp)
